import Mathlib

/-!
Verification of the `fsm_12B` safety-latching controller
(`src/fsm_12B_ert_rtw/fsm_12B.c`, `fsm_12B.h`).

The generated C code keeps its whole persistent state in the `DW` struct:
two `real_T` unit-delay states (`UnitDelay_DSTATE` for the Manager machine,
`UnitDelay1_DSTATE` for the Sensor machine), the boolean unit delay
`UnitDelay2_DSTATE` (lagged sensor health), and the merge signals
(`Merge`, `Merge_g`, `Merge_p[3]`), which persist between calls because they
live in `DW` and are only conditionally rewritten.

The `real_T` fields only ever receive the exact integral values 0.0 .. 3.0
(from the constants in the code and from copies of other such fields), and
every comparison on them is an equality test against one of these constants,
so they are embedded as `Nat`; an out-of-range integral value falls through
every branch of the if-ladders exactly as the corresponding double would.
-/

namespace Fsm12B

/-- The `DW` struct of `fsm_12B.h` (block signals and states).
`Merge_p[3]` is split into its three elements. -/
structure DW where
  Merge : Nat
  Merge_g : Nat
  UnitDelay_DSTATE : Nat
  UnitDelay1_DSTATE : Nat
  Merge_p0 : Bool
  Merge_p1 : Bool
  Merge_p2 : Bool
  UnitDelay2_DSTATE : Bool
  deriving Repr, DecidableEq

/-- The Manager if-ladder, `If: <S4>/If` of `fsm_12B_step`
(lines 35-150): computes the value held by `rtDW->Merge` after the ladder.
Reads the previous Manager state `UnitDelay_DSTATE` and the lagged health
flag `UnitDelay2_DSTATE`; when the previous state matches none of 0..3 the
ladder writes nothing and `Merge` keeps its stale value. -/
def managerActions (rtDW : DW) (rtU_standby rtU_apfail rtU_supported : Bool) :
    Nat :=
  if rtDW.UnitDelay_DSTATE = 0 then
    if rtU_standby then 3
    else if rtU_supported && rtDW.UnitDelay2_DSTATE then 1
    else rtDW.UnitDelay_DSTATE
  else if rtDW.UnitDelay_DSTATE = 1 then
    if rtU_standby then 3
    else if !rtDW.UnitDelay2_DSTATE then 2
    else 1
  else if rtDW.UnitDelay_DSTATE = 2 then
    if rtU_standby && rtDW.UnitDelay2_DSTATE then 3
    else if rtU_supported && rtDW.UnitDelay2_DSTATE then 0
    else 2
  else if rtDW.UnitDelay_DSTATE = 3 then
    if rtU_apfail then 2
    else if !rtU_standby then 0
    else 3
  else rtDW.Merge

/-- The output-mapper if-ladder, `If: <S5>/If` of `fsm_12B_step`
(lines 169-205): computes the three booleans held by `rtDW->Merge_p` after
the ladder, from the freshly merged Manager state; for a value matching none
of 0..3 the flags keep their stale values. -/
def managerOutput (rtDW : DW) (merge : Nat) : Bool × Bool × Bool :=
  if merge = 0 then (false, true, false)
  else if merge = 1 then (true, true, false)
  else if merge = 2 then (true, false, true)
  else if merge = 3 then (true, false, false)
  else (rtDW.Merge_p0, rtDW.Merge_p1, rtDW.Merge_p2)

/-- The Sensor if-ladder, `If: <S14>/If` of `fsm_12B_step`
(lines 212-286): computes the value held by `rtDW->Merge_g` after the
ladder, from the previous Sensor state `UnitDelay1_DSTATE`, the two status
flags `Merge_p[0]`, `Merge_p[1]` of this cycle, and the `limits` input; when
the previous state matches none of 0..2 the ladder writes nothing and
`Merge_g` keeps its stale value. -/
def senActions (rtDW : DW) (p0 p1 rtU_limits : Bool) : Nat :=
  if rtDW.UnitDelay1_DSTATE = 0 then
    if rtU_limits then 2
    else if !p1 then 1
    else rtDW.UnitDelay1_DSTATE
  else if rtDW.UnitDelay1_DSTATE = 1 then
    if p0 && p1 then 0
    else 1
  else if rtDW.UnitDelay1_DSTATE = 2 then
    if !p1 || !rtU_limits then 1
    else 2
  else rtDW.Merge_g

/-- `fsm_12B_step` (fsm_12B.c lines 26-304) as a pure transformer of the
`DW` record.  The second component of the result is the final value of the
callee's local `rtY_pullup` parameter (the assignment on line 291); whether
that value reaches the caller is a separate question of C parameter-passing
semantics, modelled by ` fsm_12B_step_call` below. -/
def fsm_12B_step (rtDW : DW)
    (rtU_standby rtU_apfail rtU_supported rtU_limits rtY_pullup : Bool) :
    DW × Bool :=
  let merge := managerActions rtDW rtU_standby rtU_apfail rtU_supported
  let p := managerOutput rtDW merge
  let merge_g := senActions rtDW p.1 p.2.1 rtU_limits
  let rtY_pullup := p.2.2
  (⟨merge, merge_g, merge, merge_g, p.1, p.2.1, p.2.2,
    !(merge_g = 2)⟩, rtY_pullup)

/-- `fsm_12B_initialize` (fsm_12B.c lines 306-313): sets only the
`UnitDelay2_DSTATE` initial condition to true; every other field keeps
whatever the storage held. -/
def fsm_12B_initialize (rtDW : DW) : DW :=
  { rtDW with UnitDelay2_DSTATE := true }

/-- The zero-initialized `DW` record: `static DW rtDW;` in the harnesses
(`ert_main.c`) has static storage duration, so C zero-initializes every
field. -/
def DW_zero : DW := ⟨0, 0, 0, 0, false, false, false, false⟩

/-- One call of `fsm_12B_step` as seen by the caller.  The declared
interface (`fsm_12B.h` lines 49-51) takes `boolean_T rtY_pullup` by value,
so the callee works on a private copy: the caller observes the new `DW`
(reached through the `rtM->dwork` pointer) while its own pullup variable
holds whatever it held before the call. -/
def fsm_12B_step_call (rtDW : DW)
    (rtU_standby rtU_apfail rtU_supported rtU_limits : Bool)
    (callerPullup : Bool) : DW × Bool :=
  ((fsm_12B_step rtDW rtU_standby rtU_apfail rtU_supported rtU_limits
      callerPullup).1, callerPullup)

/-- Manager mode enumeration, §3 of the design document; the code encodes
these as the `real_T` values 0.0, 1.0, 2.0, 3.0. -/
inductive ManagerState
  | TRANSITION
  | NOMINAL
  | MANEUVER
  | STANDBY
  deriving Repr, DecidableEq

/-- The numeric encoding of a Manager mode used by the generated code. -/
def ManagerState.toNat : ManagerState → Nat
  | .TRANSITION => 0
  | .NOMINAL => 1
  | .MANEUVER => 2
  | .STANDBY => 3

/-- Sensor mode enumeration, §3 of the design document; encoded as
0.0, 1.0, 2.0 in the code. -/
inductive SensorState
  | NOMINAL
  | TRANSITION
  | FAULT
  deriving Repr, DecidableEq

/-- The numeric encoding of a Sensor mode used by the generated code. -/
def SensorState.toNat : SensorState → Nat
  | .NOMINAL => 0
  | .TRANSITION => 1
  | .FAULT => 2

/-- Modelled from the spec: the §4.1 ManagerFSM transition table, transcribed
from the design document's words (for comparison against the code's
`managerActions` ladder). -/
def managerTableSpec (m : ManagerState)
    (sensorHealthy standby apfail supported : Bool) : ManagerState :=
  match m with
  | .TRANSITION =>
      if standby then .STANDBY
      else if supported && sensorHealthy then .NOMINAL
      else .TRANSITION
  | .NOMINAL =>
      if standby then .STANDBY
      else if !sensorHealthy then .MANEUVER
      else .NOMINAL
  | .MANEUVER =>
      if standby && sensorHealthy then .STANDBY
      else if supported && sensorHealthy then .TRANSITION
      else .MANEUVER
  | .STANDBY =>
      if apfail then .MANEUVER
      else if !standby then .TRANSITION
      else .STANDBY

/-- Modelled from the spec: the §4.3 SensorFSM transition table, transcribed
from the design document's words (for comparison against the code's
`senActions` ladder). -/
def sensorTableSpec (st : SensorState) (flag0 flag1 limits : Bool) :
    SensorState :=
  match st with
  | .NOMINAL =>
      if limits then .FAULT
      else if !flag1 then .TRANSITION
      else .NOMINAL
  | .TRANSITION =>
      if flag0 && flag1 then .NOMINAL
      else .TRANSITION
  | .FAULT =>
      if !flag1 || !limits then .TRANSITION
      else .FAULT

/-- C6: after model initialization (` fsm_12B_initialize` run on the
zero-initialized `DW` record), the persistent state holds
ManagerState = TRANSITION (encoded 0), SensorState = NOMINAL (encoded 0),
and sensorHealthy = true. -/
theorem initialize_yields_transition_nominal_healthy :
    ( fsm_12B_initialize DW_zero).UnitDelay_DSTATE = 0 ∧
    ( fsm_12B_initialize DW_zero).UnitDelay1_DSTATE = 0 ∧
    ( fsm_12B_initialize DW_zero).UnitDelay2_DSTATE = true :=
  ⟨rfl, rfl, rfl⟩

/-- C10: for every combination of the four boolean inputs (and any incoming
value of the output parameter), the first call to `fsm_12B_step` after
initialization computes a pullup flag of false: MANEUVER is not reachable
from TRANSITION in one step. -/
theorem first_step_after_init_no_pullup (s a u l p : Bool) :
    (fsm_12B_step ( fsm_12B_initialize DW_zero) s a u l p).2 = false := by
  cases s <;> cases a <;> cases u <;> cases l <;> cases p <;> decide

/-- C4: after every call to `fsm_12B_step` the persisted health flag
`UnitDelay2_DSTATE` equals (new SensorState ≠ FAULT); and the Manager logic
of a call consumes only the previously persisted health field — replacing
the stored SensorState `UnitDelay1_DSTATE` by any value `v` leaves the new
ManagerState unchanged, so health is not recomputed from the SensorState
updated in the same call (one-cycle lag). -/
theorem sensorHealthy_lagged_persistence (dw : DW) (v : Nat)
    (s a u l p : Bool) :
    (fsm_12B_step dw s a u l p).1.UnitDelay2_DSTATE
      = !(decide ((fsm_12B_step dw s a u l p).1.UnitDelay1_DSTATE = 2)) ∧
    (fsm_12B_step { dw with UnitDelay1_DSTATE := v }
        s a u l p).1.UnitDelay_DSTATE
      = (fsm_12B_step dw s a u l p).1.UnitDelay_DSTATE :=
  ⟨rfl, rfl⟩

/-- C8: a call to `fsm_12B_step` leaves the caller's pullup variable
unchanged — the `rtY_pullup` parameter is by value, so only the `DW` state
reached through `rtM->dwork` is affected — and concretely, from NOMINAL
with unhealthy sensor the body computes pullup = true while the caller
still reads false: the declared interface delivers no pullup output. -/
theorem step_call_delivers_no_pullup (dw : DW) (s a u l p : Bool) :
    ((fsm_12B_step_call dw s a u l p).2 = p ∧
     (fsm_12B_step_call dw s a u l p).1 = (fsm_12B_step dw s a u l p).1) ∧
    ((fsm_12B_step ⟨0, 0, 1, 0, false, false, false, false⟩
        false false false false false).2 = true ∧
     (fsm_12B_step_call ⟨0, 0, 1, 0, false, false, false, false⟩
        false false false false false).2 = false) :=
  ⟨⟨rfl, rfl⟩, by decide, by decide⟩

/-- C1: for every persistent state whose ManagerState is one of the four
enumerated values and every combination of the four boolean inputs, the
pullup value computed by one call to `fsm_12B_step` (the value the body
assigns to its output parameter) is true iff the newly computed
ManagerState of that same call equals MANEUVER (encoded 2), equivalently
iff flag2 (`Merge_p[2]`) of the StatusFlags computed from the new
ManagerState holds. -/
theorem pullup_iff_new_state_maneuver (dw : DW) (s a u l p : Bool)
    (h : dw.UnitDelay_DSTATE = 0 ∨ dw.UnitDelay_DSTATE = 1 ∨
         dw.UnitDelay_DSTATE = 2 ∨ dw.UnitDelay_DSTATE = 3) :
    ((fsm_12B_step dw s a u l p).2 = true ↔
      (fsm_12B_step dw s a u l p).1.UnitDelay_DSTATE = 2) ∧
    (fsm_12B_step dw s a u l p).2 = (fsm_12B_step dw s a u l p).1.Merge_p2 := by
  rcases h with h | h | h | h <;>
    cases s <;> cases a <;> cases u <;> cases hb : dw.UnitDelay2_DSTATE <;>
    simp [fsm_12B_step, managerActions, managerOutput, h, hb]

/-- C1 witness: the theorem instantiated at a NOMINAL state with unhealthy
sensor, where the new ManagerState is MANEUVER and pullup is true. -/
theorem pullup_iff_new_state_maneuver_witness :
    ((fsm_12B_step ⟨0, 0, 1, 0, false, false, false, false⟩
        false false false false false).2 = true ↔
      (fsm_12B_step ⟨0, 0, 1, 0, false, false, false, false⟩
        false false false false false).1.UnitDelay_DSTATE = 2) ∧
    (fsm_12B_step ⟨0, 0, 1, 0, false, false, false, false⟩
        false false false false false).2
      = (fsm_12B_step ⟨0, 0, 1, 0, false, false, false, false⟩
        false false false false false).1.Merge_p2 :=
  pullup_iff_new_state_maneuver ⟨0, 0, 1, 0, false, false, false, false⟩
    false false false false false (by decide)

/-- C2: for every current ManagerState and all boolean values of
sensorHealthy, standby, apfail, supported (and any limits input and any
incoming output-parameter value), the new ManagerState computed by one
`fsm_12B_step` equals the §4.1 table `managerTableSpec` with its stated
precedence. -/
theorem manager_step_follows_table (m : ManagerState) (dw : DW)
    (sh s a u l p : Bool)
    (hm : dw.UnitDelay_DSTATE = m.toNat)
    (hh : dw.UnitDelay2_DSTATE = sh) :
    (fsm_12B_step dw s a u l p).1.UnitDelay_DSTATE
      = (managerTableSpec m sh s a u).toNat := by
  cases m <;> cases sh <;> cases s <;> cases a <;> cases u <;>
    simp [fsm_12B_step, managerActions, managerTableSpec, ManagerState.toNat,
      hm, hh]

/-- C2 witness: the theorem instantiated from NOMINAL with unhealthy sensor
and all inputs false, where the table yields MANEUVER. -/
theorem manager_step_follows_table_witness :
    (fsm_12B_step ⟨0, 0, 1, 0, false, false, false, false⟩
        false false false false false).1.UnitDelay_DSTATE
      = (managerTableSpec .NOMINAL false false false false).toNat :=
  manager_step_follows_table .NOMINAL
    ⟨0, 0, 1, 0, false, false, false, false⟩
    false false false false false false (by decide) (by decide)

/-- C3: for every current SensorState and all boolean values of flag0,
flag1 and limits, the Sensor ladder `senActions` follows the §4.3 table
`sensorTableSpec`; and within one `fsm_12B_step` the committed new
SensorState is exactly `senActions` applied to the current-cycle
StatusFlags computed from the new ManagerState. -/
theorem sensor_step_follows_table (st : SensorState) (dw : DW)
    (f0 f1 l s a u p : Bool)
    (hs : dw.UnitDelay1_DSTATE = st.toNat) :
    senActions dw f0 f1 l = (sensorTableSpec st f0 f1 l).toNat ∧
    (fsm_12B_step dw s a u l p).1.UnitDelay1_DSTATE
      = senActions dw (managerOutput dw (managerActions dw s a u)).1
          (managerOutput dw (managerActions dw s a u)).2.1 l := by
  constructor
  · cases st <;> cases f0 <;> cases f1 <;> cases l <;>
      simp [senActions, sensorTableSpec, SensorState.toNat, hs]
  · rfl

/-- C3 witness: the theorem instantiated at FAULT with flag1 = true and
limits = false, where the table yields TRANSITION. -/
theorem sensor_step_follows_table_witness :
    senActions ⟨0, 0, 0, 2, false, false, false, false⟩ true true false
      = (sensorTableSpec .FAULT true true false).toNat ∧
    (fsm_12B_step ⟨0, 0, 0, 2, false, false, false, false⟩
        false false false false false).1.UnitDelay1_DSTATE
      = senActions ⟨0, 0, 0, 2, false, false, false, false⟩
          (managerOutput ⟨0, 0, 0, 2, false, false, false, false⟩
            (managerActions ⟨0, 0, 0, 2, false, false, false, false⟩
              false false false)).1
          (managerOutput ⟨0, 0, 0, 2, false, false, false, false⟩
            (managerActions ⟨0, 0, 0, 2, false, false, false, false⟩
              false false false)).2.1 false :=
  sensor_step_follows_table .FAULT ⟨0, 0, 0, 2, false, false, false, false⟩
    true true false false false false false (by decide)

/-- The Manager ladder stays in range: from an in-range previous Manager
state the merged value is again one of 0..3 (and the stale `Merge` fallback
is never consulted). -/
theorem managerActions_in_range (dw : DW) (s a u : Bool)
    (hM : dw.UnitDelay_DSTATE = 0 ∨ dw.UnitDelay_DSTATE = 1 ∨
          dw.UnitDelay_DSTATE = 2 ∨ dw.UnitDelay_DSTATE = 3) :
    managerActions dw s a u = 0 ∨ managerActions dw s a u = 1 ∨
    managerActions dw s a u = 2 ∨ managerActions dw s a u = 3 := by
  rcases hM with h | h | h | h <;> cases s <;> cases a <;> cases u <;>
    cases hb : dw.UnitDelay2_DSTATE <;> simp [managerActions, h, hb]

/-- The Sensor ladder stays in range: from an in-range previous Sensor
state the merged value is again one of 0..2 (and the stale `Merge_g`
fallback is never consulted). -/
theorem senActions_in_range (dw : DW) (f0 f1 l : Bool)
    (hS : dw.UnitDelay1_DSTATE = 0 ∨ dw.UnitDelay1_DSTATE = 1 ∨
          dw.UnitDelay1_DSTATE = 2) :
    senActions dw f0 f1 l = 0 ∨ senActions dw f0 f1 l = 1 ∨
    senActions dw f0 f1 l = 2 := by
  rcases hS with h | h | h <;> cases f0 <;> cases f1 <;> cases l <;>
    simp [senActions, h]

/-- The Manager ladder reads only `UnitDelay_DSTATE` and
`UnitDelay2_DSTATE` when the previous Manager state is in range: two
records agreeing on those fields merge alike. -/
theorem managerActions_stale_free (dw₁ dw₂ : DW) (s a u : Bool)
    (e0 : dw₁.UnitDelay_DSTATE = dw₂.UnitDelay_DSTATE)
    (e2 : dw₁.UnitDelay2_DSTATE = dw₂.UnitDelay2_DSTATE)
    (hM : dw₂.UnitDelay_DSTATE = 0 ∨ dw₂.UnitDelay_DSTATE = 1 ∨
          dw₂.UnitDelay_DSTATE = 2 ∨ dw₂.UnitDelay_DSTATE = 3) :
    managerActions dw₁ s a u = managerActions dw₂ s a u := by
  rcases hM with h | h | h | h <;> simp [managerActions, e0, e2, h]

/-- The output mapper reads no stale state when the merged Manager value is
in range: any two records map an in-range value alike. -/
theorem managerOutput_stale_free (dw₁ dw₂ : DW) (merge : Nat)
    (hM : merge = 0 ∨ merge = 1 ∨ merge = 2 ∨ merge = 3) :
    managerOutput dw₁ merge = managerOutput dw₂ merge := by
  rcases hM with h | h | h | h <;> simp [managerOutput, h]

/-- The Sensor ladder reads only `UnitDelay1_DSTATE` (besides its flag and
limits arguments) when the previous Sensor state is in range. -/
theorem senActions_stale_free (dw₁ dw₂ : DW) (f0 f1 l : Bool)
    (e1 : dw₁.UnitDelay1_DSTATE = dw₂.UnitDelay1_DSTATE)
    (hS : dw₂.UnitDelay1_DSTATE = 0 ∨ dw₂.UnitDelay1_DSTATE = 1 ∨
          dw₂.UnitDelay1_DSTATE = 2) :
    senActions dw₁ f0 f1 l = senActions dw₂ f0 f1 l := by
  rcases hS with h | h | h <;> simp [senActions, e1, h]

/-- C5: for every in-range pair (ManagerState in 0..3, SensorState in 0..2)
and every combination of the four boolean inputs, one `fsm_12B_step`
produces an in-range new ManagerState and new SensorState — the in-range
property is an invariant — and the whole result is independent of the stale
`Merge`, `Merge_g` and `Merge_p` fields, so every ladder took a defining
branch and no undefined (stale-retaining) branch was used. -/
theorem step_in_range_invariant (dw : DW) (s a u l p : Bool)
    (m' g' : Nat) (q0 q1 q2 : Bool)
    (hM : dw.UnitDelay_DSTATE = 0 ∨ dw.UnitDelay_DSTATE = 1 ∨
          dw.UnitDelay_DSTATE = 2 ∨ dw.UnitDelay_DSTATE = 3)
    (hS : dw.UnitDelay1_DSTATE = 0 ∨ dw.UnitDelay1_DSTATE = 1 ∨
          dw.UnitDelay1_DSTATE = 2) :
    ((fsm_12B_step dw s a u l p).1.UnitDelay_DSTATE = 0 ∨
     (fsm_12B_step dw s a u l p).1.UnitDelay_DSTATE = 1 ∨
     (fsm_12B_step dw s a u l p).1.UnitDelay_DSTATE = 2 ∨
     (fsm_12B_step dw s a u l p).1.UnitDelay_DSTATE = 3) ∧
    ((fsm_12B_step dw s a u l p).1.UnitDelay1_DSTATE = 0 ∨
     (fsm_12B_step dw s a u l p).1.UnitDelay1_DSTATE = 1 ∨
     (fsm_12B_step dw s a u l p).1.UnitDelay1_DSTATE = 2) ∧
    fsm_12B_step { dw with Merge := m', Merge_g := g', Merge_p0 := q0,
                           Merge_p1 := q1, Merge_p2 := q2 } s a u l p
      = fsm_12B_step dw s a u l p := by
  refine ⟨managerActions_in_range dw s a u hM,
    senActions_in_range dw _ _ l hS, ?_⟩
  have h1 := managerActions_stale_free
    { dw with Merge := m', Merge_g := g', Merge_p0 := q0,
              Merge_p1 := q1, Merge_p2 := q2 } dw s a u rfl rfl hM
  have h2 := managerOutput_stale_free
    { dw with Merge := m', Merge_g := g', Merge_p0 := q0,
              Merge_p1 := q1, Merge_p2 := q2 } dw (managerActions dw s a u)
    (managerActions_in_range dw s a u hM)
  have h3 := fun f0 f1 => senActions_stale_free
    { dw with Merge := m', Merge_g := g', Merge_p0 := q0,
              Merge_p1 := q1, Merge_p2 := q2 } dw f0 f1 l rfl hS
  simp [fsm_12B_step, h1, h2, h3]

/-- C5 witness: the theorem instantiated at the initial state with all
inputs true and arbitrary stale-field replacements. -/
theorem step_in_range_invariant_witness :
    (((fsm_12B_step ⟨7, 9, 0, 0, false, false, false, true⟩
        true true true true false).1.UnitDelay_DSTATE = 0 ∨
      (fsm_12B_step ⟨7, 9, 0, 0, false, false, false, true⟩
        true true true true false).1.UnitDelay_DSTATE = 1 ∨
      (fsm_12B_step ⟨7, 9, 0, 0, false, false, false, true⟩
        true true true true false).1.UnitDelay_DSTATE = 2 ∨
      (fsm_12B_step ⟨7, 9, 0, 0, false, false, false, true⟩
        true true true true false).1.UnitDelay_DSTATE = 3) ∧
     ((fsm_12B_step ⟨7, 9, 0, 0, false, false, false, true⟩
        true true true true false).1.UnitDelay1_DSTATE = 0 ∨
      (fsm_12B_step ⟨7, 9, 0, 0, false, false, false, true⟩
        true true true true false).1.UnitDelay1_DSTATE = 1 ∨
      (fsm_12B_step ⟨7, 9, 0, 0, false, false, false, true⟩
        true true true true false).1.UnitDelay1_DSTATE = 2) ∧
     fsm_12B_step { (⟨7, 9, 0, 0, false, false, false, true⟩ : DW) with
                    Merge := 5, Merge_g := 6, Merge_p0 := true,
                    Merge_p1 := true, Merge_p2 := true }
         true true true true false
       = fsm_12B_step ⟨7, 9, 0, 0, false, false, false, true⟩
           true true true true false) :=
  step_in_range_invariant ⟨7, 9, 0, 0, false, false, false, true⟩
    true true true true false 5 6 true true true (by decide) (by decide)

/-- C7: from ManagerState = TRANSITION with sensorHealthy = true and inputs
standby = false, apfail = false, limits = true: with supported = true the
new ManagerState is NOMINAL (1), and with supported = false it stays
TRANSITION (0). -/
theorem transition_latch_scenario (dw : DW) (p : Bool)
    (hm : dw.UnitDelay_DSTATE = 0)
    (hh : dw.UnitDelay2_DSTATE = true) :
    (fsm_12B_step dw false false true true p).1.UnitDelay_DSTATE = 1 ∧
    (fsm_12B_step dw false false false true p).1.UnitDelay_DSTATE = 0 := by
  constructor <;> simp [fsm_12B_step, managerActions, hm, hh]

/-- C7 witness: the theorem instantiated at the freshly initialized state. -/
theorem transition_latch_scenario_witness :
    (fsm_12B_step ⟨0, 0, 0, 0, false, false, false, true⟩
        false false true true false).1.UnitDelay_DSTATE = 1 ∧
    (fsm_12B_step ⟨0, 0, 0, 0, false, false, false, true⟩
        false false false true false).1.UnitDelay_DSTATE = 0 :=
  transition_latch_scenario ⟨0, 0, 0, 0, false, false, false, true⟩ false
    (by decide) (by decide)

/-- C9: for every persistent state with in-range ManagerState and
SensorState, two calls to `fsm_12B_step` whose inputs differ only in the
limits input compute the same new ManagerState, the same StatusFlags and
the same pullup value in that cycle — limits cannot switch pullup on in the
same cycle it is raised. -/
theorem limits_does_not_affect_pullup_same_cycle (dw : DW)
    (s a u l₁ l₂ p : Bool)
    (hM : dw.UnitDelay_DSTATE = 0 ∨ dw.UnitDelay_DSTATE = 1 ∨
          dw.UnitDelay_DSTATE = 2 ∨ dw.UnitDelay_DSTATE = 3)
    (hS : dw.UnitDelay1_DSTATE = 0 ∨ dw.UnitDelay1_DSTATE = 1 ∨
          dw.UnitDelay1_DSTATE = 2) :
    (fsm_12B_step dw s a u l₁ p).1.UnitDelay_DSTATE
      = (fsm_12B_step dw s a u l₂ p).1.UnitDelay_DSTATE ∧
    (fsm_12B_step dw s a u l₁ p).1.Merge_p0
      = (fsm_12B_step dw s a u l₂ p).1.Merge_p0 ∧
    (fsm_12B_step dw s a u l₁ p).1.Merge_p1
      = (fsm_12B_step dw s a u l₂ p).1.Merge_p1 ∧
    (fsm_12B_step dw s a u l₁ p).1.Merge_p2
      = (fsm_12B_step dw s a u l₂ p).1.Merge_p2 ∧
    (fsm_12B_step dw s a u l₁ p).2 = (fsm_12B_step dw s a u l₂ p).2 :=
  ⟨rfl, rfl, rfl, rfl, rfl⟩

/-- C9 witness: the theorem instantiated at the initial state with the two
limits values false and true. -/
theorem limits_does_not_affect_pullup_same_cycle_witness :
    (fsm_12B_step ⟨0, 0, 0, 0, false, false, false, true⟩
        false false false false false).1.UnitDelay_DSTATE
      = (fsm_12B_step ⟨0, 0, 0, 0, false, false, false, true⟩
        false false false true false).1.UnitDelay_DSTATE ∧
    (fsm_12B_step ⟨0, 0, 0, 0, false, false, false, true⟩
        false false false false false).1.Merge_p0
      = (fsm_12B_step ⟨0, 0, 0, 0, false, false, false, true⟩
        false false false true false).1.Merge_p0 ∧
    (fsm_12B_step ⟨0, 0, 0, 0, false, false, false, true⟩
        false false false false false).1.Merge_p1
      = (fsm_12B_step ⟨0, 0, 0, 0, false, false, false, true⟩
        false false false true false).1.Merge_p1 ∧
    (fsm_12B_step ⟨0, 0, 0, 0, false, false, false, true⟩
        false false false false false).1.Merge_p2
      = (fsm_12B_step ⟨0, 0, 0, 0, false, false, false, true⟩
        false false false true false).1.Merge_p2 ∧
    (fsm_12B_step ⟨0, 0, 0, 0, false, false, false, true⟩
        false false false false false).2
      = (fsm_12B_step ⟨0, 0, 0, 0, false, false, false, true⟩
        false false false true false).2 :=
  limits_does_not_affect_pullup_same_cycle
    ⟨0, 0, 0, 0, false, false, false, true⟩
    false false false false true false (by decide) (by decide)

end Fsm12B
